import Mathlib

set_option maxRecDepth 100000

/-!
Verification of the multi-agent research pipeline (agents + local fallback
stores) of this repository.  The Python sources are shallowly embedded:

* strings are Lean `String`s (Python `len` counts code points, as does
  `String.length`);
* the review agent's two `re.search` patterns of the shape `A.*B` (where
  neither `A` nor `B` contains a newline and `.` does not match `\n`) are
  embedded as: some line of the text contains an occurrence of `A` followed,
  within the same line, by an occurrence of `B`;
* Python `str.count` (non-overlapping, left-to-right) is embedded by
  `countSub`;
* the wall clock (`time.time()`, `datetime.now()`) is passed in as an
  explicit oracle argument, and the embedding / generation services are
  passed in as oracle functions returning `Option` (`none` = the call
  raised), matching the try/except structure of the source;
* the vector store is modelled in its local-fallback mode (`use_milvus =
  False`), which the spec declares the in-scope contract; the PostgreSQL
  client is modelled in its disconnected fallback mode (`save_report`
  returns the sentinel id 1 and records nothing), matching the
  services-unavailable configurations the claims quantify over.
-/

/-! ## Generic string scanning helpers (Python `in`, `str.count`, `re.search`) -/

/-- Does `pat` occur as a contiguous sublist of `s`?  Embeds Python's
`pat in s` on strings (for nonempty `pat`). -/
def containsSub (pat : List Char) : List Char → Bool
  | [] => pat.isEmpty
  | c :: rest => pat.isPrefixOf (c :: rest) || containsSub pat rest

/-- Fuel-driven scanner behind `countSub`; one unit of fuel is spent per
character position, so fuel `s.length` always suffices. -/
def countSubAux (pat : List Char) : Nat → List Char → Nat
  | 0, _ => 0
  | _, [] => 0
  | fuel + 1, c :: rest =>
    if pat.isPrefixOf (c :: rest) then
      1 + countSubAux pat fuel (rest.drop (pat.length - 1))
    else
      countSubAux pat fuel rest

/-- Number of non-overlapping occurrences of `pat` in `s`, scanning left to
right and resuming after each match: Python's `s.count(pat)` for nonempty
`pat`. -/
def countSub (pat s : List Char) : Nat :=
  countSubAux pat s.length s

/-- Split a character list at every newline (`str.splitlines`-like, but exactly
the line decomposition that matters for `.`-based regexes: `.` never matches
`'\n'`). -/
def splitLines : List Char → List (List Char)
  | [] => [[]]
  | c :: rest =>
    if c = '\n' then [] :: splitLines rest
    else
      match splitLines rest with
      | [] => [[c]]
      | l :: ls => (c :: l) :: ls

/-- Does the line contain an occurrence of `pre` followed later in the same
line by an occurrence of `post`? -/
def lineMatch (pre post : List Char) : List Char → Bool
  | [] => false
  | c :: rest =>
    (pre.isPrefixOf (c :: rest) && containsSub post ((c :: rest).drop pre.length))
      || lineMatch pre post rest

/-- Embedding of `re.search(pre + ".*" + post, s)` being a match, for
newline-free literals `pre`, `post`: some line of `s` matches. -/
def regexDotStar (pre post : String) (s : String) : Bool :=
  (splitLines s.data).any (lineMatch pre.data post.data)

/-- Python `pat in s` for strings. -/
def containsStr (pat s : String) : Bool :=
  containsSub pat.data s.data

/-- Python `s.count(pat)` for strings. -/
def countStr (pat s : String) : Nat :=
  countSub pat.data s.data

/-! ## ReviewAgent (`src/agents/review_agent.py`) -/

/-- Result dict built by `ReviewAgent.review_report`. -/
structure ReviewResult where
  quality_score : Int
  feedback : List String
  suggestions : List String
  overall_assessment : String
deriving DecidableEq, Repr

/-- Embeds `re.search(r"# .*研究报告", content)`: the title check of
`ReviewAgent._check_structure`. -/
def hasReportTitle (content : String) : Bool :=
  regexDotStar "# " "研究报告" content

/-- Embeds `ReviewAgent._check_structure`: missing-title feedback first, then one
feedback item per missing required section, in the source's fixed order. -/
def check_structure (content : String) : List String :=
  (if hasReportTitle content then [] else ["缺少研究报告标题"])
    ++ ((["引言", "主要内容", "结论"].filter
          (fun section_1 => !containsStr section_1 content)).map
        (fun section_1 => "缺少\x27" ++ section_1 ++ "\x27部分"))

/-- Result dict of `ReviewAgent._assess_content_quality`. -/
structure ContentQuality where
  score : Int
  issues : List String
  suggestions : List String
deriving DecidableEq, Repr

/-- Embeds `ReviewAgent._assess_content_quality`: length window `[200, 2000]` worth
20 points, evidence marker worth 10, absence of repeated boilerplate worth
10; issues/suggestions in the source's order. -/
def assess_content_quality (content : String) : ContentQuality :=
  let charCount := content.length
  let lengthScore : Int := if charCount < 200 then 0 else if charCount > 2000 then 0 else 20
  let lengthIssues : List String :=
    if charCount < 200 then ["内容过于简短"]
    else if charCount > 2000 then ["内容过于冗长"]
    else []
  let evidenceScore : Int := if containsStr "相关文档提到了以下要点" content then 10 else 0
  let evidenceSuggestions : List String :=
    if containsStr "相关文档提到了以下要点" content then []
    else ["建议引用具体资料支持观点"]
  let repeatScore : Int := if countStr "这是一个关于" content > 1 then 0 else 10
  let repeatIssues : List String :=
    if countStr "这是一个关于" content > 1 then ["存在重复表述"] else []
  { score := lengthScore + evidenceScore + repeatScore,
    issues := lengthIssues ++ repeatIssues,
    suggestions := evidenceSuggestions }

/-- Number of the three fixed placeholder patterns of
`ReviewAgent._check_language` matched by `content`. -/
def placeholderCount (content : String) : Nat :=
  (if regexDotStar "这是关于" "的研究摘要" content then 1 else 0)
    + (if containsStr "该领域包含多个方面和应用场景" content then 1 else 0)
    + (if regexDotStar "未来，" "可能会有更多的创新和发展" content then 1 else 0)

/-- Embeds `ReviewAgent._check_language`. -/
def check_language (content : String) : List String :=
  if placeholderCount content > 2 then ["包含过多模板化表述，建议增加原创内容"] else []

/-- Structure contribution to the quality score: 20 when `_check_structure`
found no issues, else 0. -/
def structure_score (content : String) : Int :=
  if check_structure content = [] then 20 else 0

/-- Language contribution to the quality score: 20 when `_check_language`
found no issues, else 0. -/
def language_score (content : String) : Int :=
  if check_language content = [] then 20 else 0

/-- The threshold step function at the end of `ReviewAgent.review_report`
("优秀" = Excellent, "良好" = Good, "一般" = Fair, "较差" = Poor). -/
def assessOf (score : Int) : String :=
  if score ≥ 80 then "优秀"
  else if score ≥ 60 then "良好"
  else if score ≥ 40 then "一般"
  else "较差"

/-- Embeds `ReviewAgent.review_report`: accumulates the three category scores and
concatenates feedback in the source's order (structure, content, language);
`topic` is accepted but never used by the scoring. -/
def review_report (content : String) (topic : String) : ReviewResult :=
  let cq := assess_content_quality content
  let score := structure_score content + cq.score + language_score content
  { quality_score := score,
    feedback := check_structure content ++ cq.issues ++ check_language content,
    suggestions := cq.suggestions,
    overall_assessment := assessOf score }

/-! ## MilvusClient in local-fallback mode (`src/database/milvus_client.py`) -/

/-- One record of the local fallback store: the dict appended by
`MilvusClient.insert_document` in local mode.  Embedding coordinates are
JSON numbers, embedded as rationals (no arithmetic is ever performed on
them in the in-scope code). -/
structure Chunk where
  id : Int
  content : String
  embedding : List Rat
  source : String
  timestamp : Int
deriving DecidableEq, Repr

/-- The 1024-wide zero fallback vector `[0.0] * 1024`. -/
def zeroVec : List Rat := List.replicate 1024 0

/-- Embeds `MilvusClient.insert_document` in local-fallback mode: append one record
whose id is the current record count plus one, then persist.  (The remote
Milvus branch is out of scope; persistence does not change the in-memory
list.) -/
def insert_document (local_data : List Chunk) (content : String)
    (embedding : List Rat) (source : String) (timestamp : Int) : List Chunk :=
  local_data ++
    [{ id := (local_data.length : Int) + 1, content := content,
       embedding := embedding, source := source, timestamp := timestamp }]

/-- Embeds `MilvusClient._search_local_documents`: Python `local_data[-limit:] if
local_data else []`.  Note `[-0:]` is the whole list.  The per-result
`MockResult`/`MockEntity` wrappers are identity shims around the record and
are elided. -/
def search_local_documents (local_data : List Chunk) (limit : Nat) : List Chunk :=
  if local_data = [] then []
  else if limit = 0 then local_data
  else local_data.drop (local_data.length - limit)

/-- Embeds `MilvusClient.search_similar_documents` with `use_milvus = False`:
delegates to the local search, ignoring the query embedding. -/
def search_similar_documents (query_embedding : List Rat)
    (local_data : List Chunk) (limit : Nat) : List Chunk :=
  search_local_documents local_data limit

/-! ### Local persistence (`_save_local_data` / `_load_local_data`)

The `json` module's text layer is treated as the identity on JSON documents
(Python's `json.dump`/`json.load` are mutually inverse on
JSON-representable values, and `dict` key order is preserved); the file
contents are therefore embedded as a JSON value tree. -/

/-- JSON documents, as written to / read from `milvus_data.json`. -/
inductive Json where
  | null : Json
  | bool : Bool → Json
  | num : Rat → Json
  | str : String → Json
  | arr : List Json → Json
  | obj : List (String × Json) → Json

/-- The JSON object a stored record serializes to (key order as in the
source's dict literal). -/
def chunk_to_json (c : Chunk) : Json :=
  .obj [("id", .num (c.id : Rat)),
        ("content", .str c.content),
        ("embedding", .arr (c.embedding.map Json.num)),
        ("source", .str c.source),
        ("timestamp", .num (c.timestamp : Rat))]

/-- Read a JSON number back as the Python int it came from. -/
def ratToInt (q : Rat) : Option Int :=
  if q.den = 1 then some q.num else none

/-- Decode a JSON array of numbers (an embedding vector). -/
def jsonNums : List Json → Option (List Rat)
  | [] => some []
  | .num q :: rest =>
    match jsonNums rest with
    | some l => some (q :: l)
    | none => none
  | _ :: _ => none

/-- Decode one stored record. -/
def json_to_chunk : Json → Option Chunk
  | .obj [("id", .num i), ("content", .str c), ("embedding", .arr es),
          ("source", .str s), ("timestamp", .num t)] =>
    match ratToInt i, jsonNums es, ratToInt t with
    | some id, some emb, some ts =>
      some { id := id, content := c, embedding := emb, source := s, timestamp := ts }
    | _, _, _ => none
  | _ => none

/-- Embeds `MilvusClient._save_local_data`: the JSON document written to disk is the
array of serialized records, in store order. -/
def save_local_data (local_data : List Chunk) : Json :=
  .arr (local_data.map chunk_to_json)

/-- Decode a JSON array of records. -/
def jsonChunks : List Json → Option (List Chunk)
  | [] => some []
  | j :: rest =>
    match json_to_chunk j, jsonChunks rest with
    | some c, some cs => some (c :: cs)
    | _, _ => none

/-- Embeds `MilvusClient._load_local_data` on an existing file: parse the JSON
document back into the in-memory record list. -/
def load_local_data : Json → Option (List Chunk)
  | .arr xs => jsonChunks xs
  | _ => none

/-! ## ResearchAgent (`src/agents/researcher_agent.py`) -/

/-- The canned template for "人工智能" (verbatim, including the triple-quote
indentation). -/
def aiTemplate : String :=
  "\n            人工智能（Artificial Intelligence，AI）是计算机科学的一个分支，致力于创建能够执行通常需要人类智能的任务的机器。\n            人工智能的历史可以追溯到20世纪50年代，当时艾伦·图灵提出了著名的图灵测试。\n            现代AI技术包括机器学习、深度学习、自然语言处理等子领域。\n            人工智能的应用非常广泛，涵盖了医疗诊断、金融分析、自动驾驶汽车等多个行业。\n            随着计算能力的提升和大数据的普及，人工智能技术得到了快速发展。\n            "

/-- The canned template for "机器学习" (verbatim). -/
def mlTemplate : String :=
  "\n            机器学习是人工智能的一个重要分支，它使计算机能够在不被明确编程的情况下从数据中学习。\n            监督学习、无监督学习和强化学习是机器学习的三种主要类型。\n            深度学习是一种特殊的机器学习方法，使用多层神经网络来模拟人脑的学习过程。\n            机器学习算法在图像识别、语音识别、推荐系统等领域取得了显著成果。\n            数据质量和特征工程对于机器学习模型的性能至关重要。\n            "

/-- The canned template for "深度学习" (verbatim). -/
def dlTemplate : String :=
  "\n            深度学习是机器学习的一个子集，基于人工神经网络，特别是深层神经网络。\n            卷积神经网络（CNN）在图像处理方面表现出色，而循环神经网络（RNN）适合序列数据处理。\n            近年来，Transformer架构在自然语言处理任务中取得了突破性进展。\n            深度学习需要大量标注数据和强大的计算资源，如GPU或TPU。\n            迁移学习使得在小数据集上训练深度学习模型成为可能。\n            "

/-- The generic template used for topics outside the canned set (verbatim). -/
def genericTemplate (topic : String) : String :=
  "\n        关于" ++ topic ++ "的研究摘要：\n        这是一个关于" ++ topic
    ++ "的重要研究领域。\n        该领域包含多个方面和应用场景。\n        随着技术的发展，"
    ++ topic ++ "正变得越来越重要。\n        未来，" ++ topic
    ++ "可能会有更多的创新和发展。\n        "

/-- Embeds `ResearchAgent._generate_sample_content`: dictionary lookup with a
generic default. -/
def generate_sample_content (topic : String) : String :=
  if topic = "人工智能" then aiTemplate
  else if topic = "机器学习" then mlTemplate
  else if topic = "深度学习" then dlTemplate
  else genericTemplate topic

/-- Per-chunk embedding choice inside `process_research_topic`'s loop: the
real embedding when available and successful, the 1024-wide zero fallback
otherwise. -/
def chunkEmbedding (use_embeddings : Bool)
    (embed : Nat → String → Option (List Rat)) (p : Nat × String) : List Rat :=
  if use_embeddings then
    match embed p.1 p.2 with
    | some v => v
    | none => zeroVec
  else zeroVec

/-- Embeds `ResearchAgent.process_research_topic`.
`split` is the configured `RecursiveCharacterTextSplitter(chunk_size=1000,
chunk_overlap=200).split_text` (an external deterministic library function,
taken as a parameter); `embed i text` is the result of the `i`-th
`embed_query` call (`none` = the call raised); `use_embeddings` is the
capability flag computed at construction; `clock i` is the `time.time()`
reading at the `i`-th insert.  Returns the status message and the updated
local store. -/
def process_research_topic (split : String → List String)
    (use_embeddings : Bool) (embed : Nat → String → Option (List Rat))
    (clock : Nat → Int) (topic : String) (store : List Chunk) :
    String × List Chunk :=
  let research_content := generate_sample_content topic
  let texts := split research_content
  let store' := texts.enum.foldl
    (fun st p =>
      insert_document st p.2 (chunkEmbedding use_embeddings embed p)
        ("Research on " ++ topic) (clock p.1))
    store
  ("已完成对\x27" ++ topic ++ "\x27的研究，共处理了" ++ toString texts.length
     ++ "个文档段落。", store')

/-! ## WriterAgent (`src/agents/writer_agent.py`) -/

/-- Report dict returned by `WriterAgent.write_report`, with the transient
`review` / `knowledge_stats` decorations attached later by the
orchestrator. -/
structure Report where
  report_id : Int
  topic : String
  content : String
  review : Option ReviewResult
  knowledge_stats : Option (Nat × List String)
deriving DecidableEq, Repr

/-- The single placeholder document used when retrieval fails
(`write_report`'s except branch). -/
def defaultDocContent (topic : String) : String :=
  "这是关于" ++ topic ++ "的默认内容。在实际应用中，这将是从向量数据库中检索到的相关文档内容。"

/-- The `docs_text` block: `"\n\n".join(f"文档 {i+1}: {content}")`. -/
def docsText (doc_contents : List String) : String :=
  String.intercalate "\n\n"
    (doc_contents.enum.map (fun p => "文档 " ++ toString (p.1 + 1) ++ ": " ++ p.2))

/-- The generation prompt built by `_generate_report_from_docs` (verbatim,
including the triple-quote indentation). -/
def reportPrompt (topic : String) (doc_contents : List String) : String :=
  "\n            基于以下关于\"" ++ topic
    ++ "\"的文档内容，撰写一份结构化的研究报告：\n\n            "
    ++ docsText doc_contents
    ++ "\n\n            要求：\n            1. 报告应包含引言、主要内容和结论\n            2. 使用清晰、专业的语言\n            3. 整合所有文档中的关键信息\n            4. 报告长度约300-500字\n            \n            研究报告:\n            "

/-- The deterministic fallback report template at the end of
`_generate_report_from_docs` (verbatim, column-0 f-string). -/
def fallbackReport (topic : String) (doc_contents : List String) : String :=
  "\n# " ++ topic ++ "研究报告\n\n## 引言\n\n" ++ topic
    ++ "是当前科技领域的热门话题。本报告旨在探讨其基本概念、应用领域及未来发展趋势。\n\n## 主要内容\n\n根据收集到的资料，"
    ++ topic
    ++ "具有以下几个关键特点：\n1. 技术先进性：采用了最新的算法和技术\n2. 应用广泛性：在多个行业中都有实际应用\n3. 发展潜力大：未来仍有很大的发展空间\n\n相关文档提到了以下要点：\n"
    ++ String.intercalate "\n" (doc_contents.map (fun c => "- " ++ c.take 100 ++ "..."))
    ++ "\n\n## 结论\n\n" ++ topic
    ++ "作为一个重要的技术领域，其价值和意义不言而喻。随着技术的不断发展和完善，预计在未来几年内会有更多的突破和创新。\n\n---\n*本报告由AI自动生成*\n"

/-- Embeds `WriterAgent._generate_report_from_docs`: `llm` is the generation model
(`none` = not configured / `use_llm` false; `some gen` with `gen prompt =
none` = the `invoke` call raised).  On any generation failure the templated
report is substituted. -/
def generate_report_from_docs (llm : Option (String → Option String))
    (topic : String) (doc_contents : List String) : String :=
  match llm with
  | some gen =>
    match gen (reportPrompt topic doc_contents) with
    | some out => out
    | none => fallbackReport topic doc_contents
  | none => fallbackReport topic doc_contents

/-- Embeds `WriterAgent.write_report` with the local-fallback vector store and the
disconnected relational store (`save_report` returns the sentinel id 1).
`embedQ` is the topic-embedding call (`none` = raised / unavailable). -/
def write_report (use_embeddings : Bool) (embedQ : String → Option (List Rat))
    (llm : Option (String → Option String)) (store : List Chunk)
    (topic : String) : Report :=
  let doc_contents :=
    if use_embeddings then
      match embedQ topic with
      | some q => (search_similar_documents q store 5).map (fun c => c.content)
      | none => [defaultDocContent topic]
    else [defaultDocContent topic]
  { report_id := 1, topic := topic,
    content := generate_report_from_docs llm topic doc_contents,
    review := none, knowledge_stats := none }

/-! ## KnowledgeAgent (`src/agents/knowledge_agent.py`) -/

/-- Embeds `KnowledgeAgent.add_knowledge`: placeholder zero embedding, source drawn
from the metadata (default "unknown"), insert into the local store.
`raises` models a dependency exception inside the `try` block (the
source's `except` branch returns `False` and performs no insert). -/
def add_knowledge (raises : Bool) (store : List Chunk) (content : String)
    (metadata_source : Option String) (timestamp : Int) : Bool × List Chunk :=
  if raises then (false, store)
  else (true,
    insert_document store content zeroVec (metadata_source.getD "unknown") timestamp)

/-- Embeds `KnowledgeAgent.update_knowledge`: a placeholder that prints a message and
returns `False` unconditionally, touching nothing. -/
def update_knowledge (store : List Chunk) (knowledge_id : Int)
    (content : Option String) (metadata_source : Option String) :
    Bool × List Chunk :=
  (false, store)

/-- Embeds `KnowledgeAgent.delete_knowledge`: same placeholder shape. -/
def delete_knowledge (store : List Chunk) (knowledge_id : Int) :
    Bool × List Chunk :=
  (false, store)

/-- Embeds `KnowledgeAgent.get_knowledge_stats` in local mode: record count and the
set of distinct sources (Python builds a `set`, whose iteration order is
unspecified; it is embedded as the first-occurrence deduplication).  The
wall-clock `last_updated` field is omitted. -/
def get_knowledge_stats (store : List Chunk) : Nat × List String :=
  (store.length, (store.map (fun c => c.source)).dedup)

/-! ## OrchestratorAgent (`src/agents/orchestrator_agent.py`) -/

/-- Depth-to-iterations selection at the top of `execute_research_task`
(any unrecognized depth, including "basic", selects one iteration). -/
def iterationsFor (depth : String) : Nat :=
  if depth = "deep" then 3
  else if depth = "intermediate" then 2
  else 1

/-- The per-iteration research topic `f"{topic} (第{i+1}轮)"` (`i` is the
0-based loop index). -/
def roundTopic (topic : String) (i : Nat) : String :=
  topic ++ " (第" ++ toString (i + 1) ++ "轮)"

/-- Per-run service environment: the splitter, the capability flag, the
embedding calls of iteration `i` (per chunk, and the writer's query embed),
the generation model, and the clock readings. -/
structure OrchEnv where
  split : String → List String
  use_embeddings : Bool
  embed : Nat → Nat → String → Option (List Rat)
  embedQ : String → Option (List Rat)
  llm : Option (String → Option String)
  clock : Nat → Nat → Int
  knowledge_time : Int

/-- The `for i in range(iterations)` loop body of `execute_research_task`,
peeling the final iteration: rounds `0 … n-1` run first (threading the
vector store), then round `n` runs research, write and review;
`final_result` retains only the last iteration's report. -/
def orchRounds (env : OrchEnv) (topic : String) :
    Nat → List Chunk → Option Report × List Chunk
  | 0, store => (none, store)
  | n + 1, store =>
    let prev := orchRounds env topic n store
    let store' := (process_research_topic env.split env.use_embeddings
      (env.embed n) (env.clock n) (roundTopic topic n) prev.2).2
    let report := write_report env.use_embeddings env.embedQ env.llm store' topic
    let review := review_report report.content topic
    (some { report with review := some review }, store')

/-- Store contents after the first `n` research-stage runs of a pipeline
execution (each run re-splits and re-inserts its chunks). -/
def researchAll (env : OrchEnv) (topic : String) : Nat → List Chunk → List Chunk
  | 0, store => store
  | n + 1, store =>
    (process_research_topic env.split env.use_embeddings (env.embed n)
      (env.clock n) (roundTopic topic n)
      (researchAll env topic n store)).2

/-- Embeds `OrchestratorAgent.execute_research_task`: run the Research → Write →
Review cycle `iterationsFor depth` times, then push the final report into
the knowledge store and decorate it with the store statistics.  Returns the
final report (`none` corresponds to the source's `{}` default, which is
unreachable because at least one iteration always runs) together with the
final vector-store contents. -/
def execute_research_task (env : OrchEnv) (topic : String) (depth : String)
    (store : List Chunk) : Option Report × List Chunk :=
  match orchRounds env topic (iterationsFor depth) store with
  | (some final_result, store') =>
    let store'' := (add_knowledge false store' final_result.content
      (some ("Research on " ++ topic)) env.knowledge_time).2
    let stats := get_knowledge_stats store''
    (some { final_result with knowledge_stats := some stats }, store'')
  | (none, store') => (none, store')

/-! ## Shared lemmas about the review scoring -/

lemma structure_score_cases (content : String) :
    structure_score content = 0 ∨ structure_score content = 20 := by
  unfold structure_score; split <;> simp

lemma language_score_cases (content : String) :
    language_score content = 0 ∨ language_score content = 20 := by
  unfold language_score; split <;> simp

lemma content_score_bounds (content : String) :
    0 ≤ (assess_content_quality content).score
      ∧ (assess_content_quality content).score ≤ 40 := by
  simp only [assess_content_quality]
  refine ⟨?_, ?_⟩ <;> (split <;> split <;> split <;> omega)

lemma quality_score_decomp (content topic : String) :
    (review_report content topic).quality_score
      = structure_score content + (assess_content_quality content).score
          + language_score content := rfl

lemma quality_score_bounds (content topic : String) :
    0 ≤ (review_report content topic).quality_score
      ∧ (review_report content topic).quality_score ≤ 100 := by
  have h1 := structure_score_cases content
  have h2 := content_score_bounds content
  have h3 := language_score_cases content
  rw [quality_score_decomp]
  rcases h1 with h1 | h1 <;> rcases h3 with h3 | h3 <;> omega

/-! ## Claim C2 -/

/-- C2: for every report content string and topic, `review_report` returns a
`quality_score` in `[0,100]` that is the sum of bounded non-negative
sub-scores (structure at most 20, content quality at most 40, language at
most 20), and `overall_assessment` is exactly the deterministic step
function of `quality_score` with thresholds 80/60/40 mapping to
优秀/良好/一般/较差 (Excellent/Good/Fair/Poor), including at the boundary
values 79/80, 59/60, 39/40. -/
theorem C2_review_score_invariant :
    (∀ content topic : String,
      (review_report content topic).quality_score
          = structure_score content + (assess_content_quality content).score
              + language_score content
        ∧ (0 ≤ structure_score content ∧ structure_score content ≤ 20)
        ∧ (0 ≤ (assess_content_quality content).score
            ∧ (assess_content_quality content).score ≤ 40)
        ∧ (0 ≤ language_score content ∧ language_score content ≤ 20)
        ∧ (0 ≤ (review_report content topic).quality_score
            ∧ (review_report content topic).quality_score ≤ 100)
        ∧ (review_report content topic).overall_assessment
            = assessOf (review_report content topic).quality_score)
      ∧ assessOf 80 = "优秀" ∧ assessOf 79 = "良好" ∧ assessOf 60 = "良好"
      ∧ assessOf 59 = "一般" ∧ assessOf 40 = "一般" ∧ assessOf 39 = "较差"
      ∧ assessOf 0 = "较差" := by
  refine ⟨fun content topic => ?_, by decide, by decide, by decide, by decide,
    by decide, by decide, by decide⟩
  refine ⟨quality_score_decomp content topic, ?_, content_score_bounds content,
    ?_, quality_score_bounds content topic, rfl⟩
  · rcases structure_score_cases content with h | h <;> omega
  · rcases language_score_cases content with h | h <;> omega

/-! ## Claim C3 -/

/-- C3 (amended): on content satisfying all the scoring heuristics the
quality score is 80 — the maximum attainable — not 100; the extra
hypothesis that at most two placeholder-language patterns match is also
required for the language sub-score. -/
theorem C3_max_quality_inputs (content topic : String)
    (hlen1 : 200 ≤ content.length) (hlen2 : content.length ≤ 2000)
    (hev : containsStr "相关文档提到了以下要点" content = true)
    (hrep : countStr "这是一个关于" content ≤ 1)
    (htitle : hasReportTitle content = true)
    (hs1 : containsStr "引言" content = true)
    (hs2 : containsStr "主要内容" content = true)
    (hs3 : containsStr "结论" content = true)
    (hph : placeholderCount content ≤ 2) :
    (review_report content topic).quality_score = 80
      ∧ (review_report content topic).overall_assessment = "优秀" := by
  have hcs : check_structure content = [] := by
    simp [check_structure, htitle, hs1, hs2, hs3]
  have hss : structure_score content = 20 := by simp [structure_score, hcs]
  have hcl : check_language content = [] := by
    simp only [check_language, ite_eq_right_iff]
    omega
  have hls : language_score content = 20 := by simp [language_score, hcl]
  have h1 : ¬(content.length < 200) := by omega
  have h2 : ¬(content.length > 2000) := by omega
  have h3 : ¬(countStr "这是一个关于" content > 1) := by omega
  have hcq : (assess_content_quality content).score = 40 := by
    simp [assess_content_quality, hev, h1, h2, h3]
  have hq : (review_report content topic).quality_score = 80 := by
    rw [quality_score_decomp, hss, hls, hcq]; decide
  exact ⟨hq, by
    have : (review_report content topic).overall_assessment
        = assessOf (review_report content topic).quality_score := rfl
    rw [this, hq]; decide⟩

/-- A content string satisfying every hypothesis of the (amended) perfect
review claim. -/
def perfectContent : String :=
  "# AI研究报告\n## 引言\n## 主要内容\n## 结论\n相关文档提到了以下要点\n"
    ++ String.mk (List.replicate 200 '内')

/-- Witness: the amended C3 theorem applies to a concrete content string. -/
theorem C3_max_quality_inputs_witness :
    (200 ≤ perfectContent.length ∧ perfectContent.length ≤ 2000
      ∧ containsStr "相关文档提到了以下要点" perfectContent = true
      ∧ countStr "这是一个关于" perfectContent ≤ 1
      ∧ hasReportTitle perfectContent = true
      ∧ containsStr "引言" perfectContent = true
      ∧ containsStr "主要内容" perfectContent = true
      ∧ containsStr "结论" perfectContent = true
      ∧ placeholderCount perfectContent ≤ 2)
    ∧ (review_report perfectContent "AI").quality_score = 80
    ∧ (review_report perfectContent "AI").overall_assessment = "优秀" :=
  ⟨⟨by decide, by decide, by decide, by decide, by decide, by decide, by decide,
    by decide, by decide⟩,
   C3_max_quality_inputs perfectContent "AI" (by decide) (by decide) (by decide)
    (by decide) (by decide) (by decide) (by decide) (by decide) (by decide)⟩

/-- Counterexample to C3 as stated: `perfectContent` satisfies every condition
of the claim (length in `[200,2000]`, evidence marker, no excess repeated
boilerplate, recognizable title, all three section labels), yet its quality
score is 80, not 100 — 100 is unattainable since the sub-score caps sum to
20 + 40 + 20. -/
theorem C3_counterexample :
    (200 ≤ perfectContent.length ∧ perfectContent.length ≤ 2000
      ∧ containsStr "相关文档提到了以下要点" perfectContent = true
      ∧ countStr "这是一个关于" perfectContent ≤ 1
      ∧ hasReportTitle perfectContent = true
      ∧ containsStr "引言" perfectContent = true
      ∧ containsStr "主要内容" perfectContent = true
      ∧ containsStr "结论" perfectContent = true)
    ∧ ¬((review_report perfectContent "AI").quality_score = 100) := by
  exact ⟨⟨by decide, by decide, by decide, by decide, by decide, by decide,
    by decide, by decide⟩, by decide⟩

/-! ## Claim C9 -/

/-- C9 (amended): for content missing the report title AND all three required
sections, `_check_structure` returns exactly the 4 feedback entries
(missing title, then the three missing sections) in the source's order, the
structure check contributes 0 to the quality score, and those 4 entries are
the first 4 entries of the returned feedback (content and language checks
may append further entries). -/
theorem C9_missing_structure_feedback (content topic : String)
    (htitle : hasReportTitle content = false)
    (h1 : containsStr "引言" content = false)
    (h2 : containsStr "主要内容" content = false)
    (h3 : containsStr "结论" content = false) :
    check_structure content
        = ["缺少研究报告标题", "缺少\x27引言\x27部分", "缺少\x27主要内容\x27部分",
           "缺少\x27结论\x27部分"]
      ∧ structure_score content = 0
      ∧ (review_report content topic).feedback.take 4 = check_structure content := by
  have hcs : check_structure content
      = ["缺少研究报告标题", "缺少\x27引言\x27部分", "缺少\x27主要内容\x27部分",
         "缺少\x27结论\x27部分"] := by
    simp [check_structure, htitle, h1, h2, h3]
  refine ⟨hcs, by simp [structure_score, hcs], ?_⟩
  have : (review_report content topic).feedback
      = check_structure content
          ++ ((assess_content_quality content).issues ++ check_language content) := by
    simp [review_report]
  rw [this, hcs]
  rfl

/-- Witness: the amended C9 theorem applies to a concrete content string. -/
theorem C9_missing_structure_feedback_witness :
    (hasReportTitle "x" = false ∧ containsStr "引言" "x" = false
      ∧ containsStr "主要内容" "x" = false ∧ containsStr "结论" "x" = false)
    ∧ check_structure "x"
        = ["缺少研究报告标题", "缺少\x27引言\x27部分", "缺少\x27主要内容\x27部分",
           "缺少\x27结论\x27部分"]
    ∧ structure_score "x" = 0
    ∧ (review_report "x" "t").feedback.take 4 = check_structure "x" :=
  ⟨⟨by decide, by decide, by decide, by decide⟩,
   C9_missing_structure_feedback "x" "t" (by decide) (by decide) (by decide)
    (by decide)⟩

/-- A content string that is missing all three required sections but does
carry a recognizable report title and is otherwise clean. -/
def titledSectionless : String :=
  "# 测研究报告" ++ String.mk (List.replicate 200 '无')

/-- Counterexample to C9 as stated: this content misses all three required
sections, yet the returned feedback has 3 entries (the three
missing-section items), not 4 — no missing-title entry is produced because
the title is present. -/
theorem C9_counterexample :
    (containsStr "引言" titledSectionless = false
      ∧ containsStr "主要内容" titledSectionless = false
      ∧ containsStr "结论" titledSectionless = false)
    ∧ (review_report titledSectionless "测").feedback
        = ["缺少\x27引言\x27部分", "缺少\x27主要内容\x27部分", "缺少\x27结论\x27部分"] := by
  exact ⟨⟨by decide, by decide, by decide⟩, by decide⟩

/-! ## Claim C4 -/

/-- C4 (amended): in local-fallback mode, for every limit `k ≥ 1` and store
holding `n ≥ k` previously inserted chunks, the search returns exactly the
last `k` inserted chunks in insertion order — most recent LAST, not
most-recent-first.  (For `k = 0` the Python slice `[-0:]` returns the whole
store.) -/
theorem C4_search_returns_suffix (query_embedding : List Rat)
    (store : List Chunk) (k : Nat) (hk : 1 ≤ k) (hn : k ≤ store.length) :
    search_similar_documents query_embedding store k
        = store.drop (store.length - k)
      ∧ (search_similar_documents query_embedding store k).length = k
      ∧ store.take (store.length - k)
          ++ search_similar_documents query_embedding store k = store := by
  have hne : ¬(store = []) := by
    intro h; rw [h] at hn; simp at hn; omega
  have hk0 : ¬(k = 0) := by omega
  have heq : search_similar_documents query_embedding store k
      = store.drop (store.length - k) := by
    unfold search_similar_documents search_local_documents
    rw [if_neg hne, if_neg hk0]
  refine ⟨heq, ?_, ?_⟩
  · rw [heq, List.length_drop]; omega
  · rw [heq, List.take_append_drop]

/-- Concrete store records for the search witnesses. -/
def chunk1 : Chunk := { id := 1, content := "第一段", embedding := [], source := "s", timestamp := 10 }

/-- Second concrete record. -/
def chunk2 : Chunk := { id := 2, content := "第二段", embedding := [], source := "s", timestamp := 20 }

/-- Third concrete record. -/
def chunk3 : Chunk := { id := 3, content := "第三段", embedding := [], source := "s", timestamp := 30 }

/-- Witness: the amended C4 theorem applies to a concrete 3-record store with
limit 2. -/
theorem C4_search_returns_suffix_witness :
    (1 ≤ 2 ∧ 2 ≤ ([chunk1, chunk2, chunk3] : List Chunk).length)
    ∧ search_similar_documents [] [chunk1, chunk2, chunk3] 2
        = ([chunk1, chunk2, chunk3] : List Chunk).drop
            (([chunk1, chunk2, chunk3] : List Chunk).length - 2)
    ∧ (search_similar_documents [] [chunk1, chunk2, chunk3] 2).length = 2
    ∧ ([chunk1, chunk2, chunk3] : List Chunk).take
          (([chunk1, chunk2, chunk3] : List Chunk).length - 2)
        ++ search_similar_documents [] [chunk1, chunk2, chunk3] 2
        = [chunk1, chunk2, chunk3] :=
  ⟨⟨by decide, by decide⟩,
   C4_search_returns_suffix [] [chunk1, chunk2, chunk3] 2 (by decide) (by decide)⟩

/-- Counterexample to C4 as stated: with the three chunks inserted in order
1, 2, 3 and limit 2, the local search returns `[chunk2, chunk3]` (insertion
order), which is not the most-recent-first order `[chunk3, chunk2]`. -/
theorem C4_counterexample :
    search_similar_documents [] [chunk1, chunk2, chunk3] 2 = [chunk2, chunk3]
      ∧ ¬(search_similar_documents [] [chunk1, chunk2, chunk3] 2
            = [chunk3, chunk2]) := by
  exact ⟨by decide, by decide⟩

/-! ## Claim C5 -/

lemma ratToInt_intCast (n : Int) : ratToInt (n : Rat) = some n := by
  simp [ratToInt, Rat.den_intCast, Rat.num_intCast]

lemma jsonNums_roundtrip (l : List Rat) : jsonNums (l.map Json.num) = some l := by
  induction l with
  | nil => rfl
  | cons q rest ih => simp [jsonNums, ih]

lemma json_to_chunk_roundtrip (c : Chunk) : json_to_chunk (chunk_to_json c) = some c := by
  simp [chunk_to_json, json_to_chunk, ratToInt_intCast, jsonNums_roundtrip]

lemma jsonChunks_roundtrip (cs : List Chunk) :
    jsonChunks (cs.map chunk_to_json) = some cs := by
  induction cs with
  | nil => rfl
  | cons c rest ih => simp [jsonChunks, json_to_chunk_roundtrip, ih]

/-- C5: persisting the local fallback store to disk and reloading it
reproduces the exact same ordered sequence of chunks:
`load(save(chunks)) == chunks`. -/
theorem C5_save_load_roundtrip (chunks : List Chunk) :
    load_local_data (save_local_data chunks) = some chunks := by
  simp [save_local_data, load_local_data, jsonChunks_roundtrip]

/-! ## Claim C10 -/

/-- Arguments of one `insert_document` call. -/
structure InsertReq where
  content : String
  embedding : List Rat
  source : String
  timestamp : Int
deriving DecidableEq, Repr

/-- A sequence of `insert_document` calls applied in order. -/
def insert_all (reqs : List InsertReq) (store : List Chunk) : List Chunk :=
  reqs.foldl
    (fun st r => insert_document st r.content r.embedding r.source r.timestamp)
    store

lemma insert_all_enumFrom (reqs : List InsertReq) :
    ∀ store : List Chunk,
      insert_all reqs store
        = store ++ (List.enumFrom store.length reqs).map
            (fun p => { id := (p.1 : Int) + 1, content := p.2.content,
                        embedding := p.2.embedding, source := p.2.source,
                        timestamp := p.2.timestamp }) := by
  induction reqs with
  | nil => intro store; simp [insert_all]
  | cons r rs ih =>
    intro store
    have hstep : insert_all (r :: rs) store
        = insert_all rs (store ++
            [{ id := (store.length : Int) + 1, content := r.content,
               embedding := r.embedding, source := r.source,
               timestamp := r.timestamp }]) := rfl
    rw [hstep, ih]
    simp [List.enumFrom, List.length_append]

/-- C10: starting from an empty local store, `n` calls to `insert_document`
yield exactly `n` records in insertion order, the `i`-th (1-based) carrying
id `i` and exactly the content/embedding/source/timestamp passed to the
`i`-th call; each insert appends exactly one record to the end, leaving all
existing records untouched. -/
theorem C10_insert_append_only :
    (∀ (store : List Chunk) (content : String) (embedding : List Rat)
        (source : String) (timestamp : Int),
      insert_document store content embedding source timestamp
        = store ++ [{ id := (store.length : Int) + 1, content := content,
                      embedding := embedding, source := source,
                      timestamp := timestamp }])
    ∧ (∀ reqs : List InsertReq,
        insert_all reqs []
          = reqs.enum.map
              (fun p => { id := (p.1 : Int) + 1, content := p.2.content,
                          embedding := p.2.embedding, source := p.2.source,
                          timestamp := p.2.timestamp })) := by
  refine ⟨fun store content embedding source timestamp => rfl, fun reqs => ?_⟩
  have h := insert_all_enumFrom reqs []
  simpa [List.enum] using h

/-! ## Claim C8 -/

/-- C8 (amended): `update_knowledge` and `delete_knowledge` unconditionally
return the failure value `False` and leave the store completely unchanged;
that returned value is the very same boolean `add_knowledge` returns when
the underlying service fails, so the result is an explicit failure but NOT
distinguishable from a service-unavailable failure. -/
theorem C8_update_delete_unsupported :
    ∀ (store : List Chunk) (knowledge_id : Int) (content : Option String)
      (metadata_source : Option String) (store2 : List Chunk) (c2 : String)
      (m2 : Option String) (ts : Int),
      update_knowledge store knowledge_id content metadata_source = (false, store)
        ∧ delete_knowledge store knowledge_id = (false, store)
        ∧ (update_knowledge store knowledge_id content metadata_source).1
            = (add_knowledge true store2 c2 m2 ts).1
        ∧ (delete_knowledge store knowledge_id).1
            = (add_knowledge true store2 c2 m2 ts).1 :=
  fun _ _ _ _ _ _ _ _ => ⟨rfl, rfl, rfl, rfl⟩

/-- Counterexample to C8 as stated: at a concrete input, the value returned
by `update_knowledge` (and `delete_knowledge`) is literally equal to the
failure value a service-unavailable `add_knowledge` returns — the bare
boolean `false` — so the "not implemented" failure is not distinguishable
from a service-unavailable failure. -/
theorem C8_counterexample :
    (update_knowledge [] 1 none none).1 = (add_knowledge true [] "知识" none 0).1
      ∧ (delete_knowledge [] 1).1 = (add_knowledge true [] "知识" none 0).1
      ∧ (update_knowledge [] 1 none none).2 = []
      ∧ (delete_knowledge [] 1).2 = [] := by
  exact ⟨rfl, rfl, rfl, rfl⟩

/-! ## Claim C6 -/

lemma foldl_insert_length (src : String) (clock : Nat → Int) (u : Bool)
    (embed : Nat → String → Option (List Rat)) :
    ∀ (l : List (Nat × String)) (store : List Chunk),
      (l.foldl
        (fun st p =>
          insert_document st p.2 (chunkEmbedding u embed p) src (clock p.1))
        store).length
      = store.length + l.length := by
  intro l
  induction l with
  | nil => intro store; simp
  | cons p ps ih =>
    intro store
    simp only [List.foldl_cons]
    rw [ih]
    simp [insert_document]
    omega

lemma process_research_topic_chunk_count (split : String → List String)
    (u : Bool) (embed : Nat → String → Option (List Rat)) (clock : Nat → Int)
    (topic : String) (store : List Chunk) :
    (process_research_topic split u embed clock topic store).2.length
      = store.length + (split (generate_sample_content topic)).length := by
  unfold process_research_topic
  rw [foldl_insert_length]
  rw [List.enum_length]

/-- C6: the number of chunks processed and reported by
`process_research_topic` is identical in any two runs that differ only in
embedding availability, per-chunk embedding success/failure, or clock
readings (and starting store): the status message is the same string in
both runs, and the number of inserted chunks is exactly the number of
splitter chunks of the topic's generated content. -/
theorem C6_chunk_count_independent :
    ∀ (split : String → List String) (u1 u2 : Bool)
      (e1 e2 : Nat → String → Option (List Rat)) (cl1 cl2 : Nat → Int)
      (st1 st2 : List Chunk) (topic : String),
      (process_research_topic split u1 e1 cl1 topic st1).1
          = (process_research_topic split u2 e2 cl2 topic st2).1
        ∧ (process_research_topic split u1 e1 cl1 topic st1).1
            = "已完成对\x27" ++ topic ++ "\x27的研究，共处理了"
                ++ toString (split (generate_sample_content topic)).length
                ++ "个文档段落。"
        ∧ (process_research_topic split u1 e1 cl1 topic st1).2.length
            = st1.length + (split (generate_sample_content topic)).length
        ∧ (process_research_topic split u2 e2 cl2 topic st2).2.length
            = st2.length + (split (generate_sample_content topic)).length := by
  intro split u1 u2 e1 e2 cl1 cl2 st1 st2 topic
  exact ⟨rfl, rfl, process_research_topic_chunk_count split u1 e1 cl1 topic st1,
    process_research_topic_chunk_count split u2 e2 cl2 topic st2⟩

/-! ## Claim C7 -/

lemma orchRounds_snd (env : OrchEnv) (topic : String) :
    ∀ (n : Nat) (store : List Chunk),
      (orchRounds env topic n store).2 = researchAll env topic n store := by
  intro n
  induction n with
  | zero => intro store; rfl
  | succ m ih =>
    intro store
    simp only [orchRounds, researchAll]
    rw [ih]

lemma orchRounds_eq (env : OrchEnv) (topic : String) (n : Nat)
    (store : List Chunk) :
    orchRounds env topic (n + 1) store
      = (some { write_report env.use_embeddings env.embedQ env.llm
                  (researchAll env topic (n + 1) store) topic with
                review := some (review_report
                  (write_report env.use_embeddings env.embedQ env.llm
                    (researchAll env topic (n + 1) store) topic).content topic) },
         researchAll env topic (n + 1) store) := by
  simp only [orchRounds]
  rw [orchRounds_snd]
  simp only [researchAll]

lemma iterationsFor_succ (depth : String) :
    ∃ m : Nat, iterationsFor depth = m + 1 := by
  unfold iterationsFor
  split
  · exact ⟨2, rfl⟩
  · split
    · exact ⟨1, rfl⟩
    · exact ⟨0, rfl⟩

/-- C7: `execute_research_task` runs the Research → Write → Review cycle
`iterationsFor depth` times with basic→1, intermediate→2, deep→3; the
research stage re-runs (re-splitting and re-inserting chunks) on every
iteration while only the last cycle's write/review output becomes the
returned report; after the iterations the final report's content is pushed
into the knowledge store and the returned report is decorated with the
knowledge statistics. -/
theorem C7_orchestration_shape :
    (iterationsFor "basic" = 1 ∧ iterationsFor "intermediate" = 2
      ∧ iterationsFor "deep" = 3)
    ∧ (∀ (env : OrchEnv) (topic : String) (m : Nat) (store : List Chunk),
        researchAll env topic (m + 1) store
          = (process_research_topic env.split env.use_embeddings (env.embed m)
              (env.clock m) (roundTopic topic m)
              (researchAll env topic m store)).2)
    ∧ (∀ (env : OrchEnv) (topic depth : String) (store : List Chunk),
        execute_research_task env topic depth store
          = (let stn := researchAll env topic (iterationsFor depth) store
             let rep := write_report env.use_embeddings env.embedQ env.llm stn topic
             let rev := review_report rep.content topic
             let store2 := (add_knowledge false stn rep.content
               (some ("Research on " ++ topic)) env.knowledge_time).2
             (some { rep with
                      review := some rev,
                      knowledge_stats := some (get_knowledge_stats store2) },
              store2))) := by
  refine ⟨⟨by decide, by decide, by decide⟩, fun env topic m store => rfl,
    fun env topic depth store => ?_⟩
  obtain ⟨m, hm⟩ := iterationsFor_succ depth
  simp only [execute_research_task, hm, orchRounds_eq]

/-! ## Claim C1 -/

lemma append_right_ne_empty (s t : String) (h : t.length ≠ 0) : s ++ t ≠ "" := by
  intro he
  have h2 := congrArg String.length he
  rw [String.length_append] at h2
  simp at h2
  exact h h2.2

lemma fallbackReport_ne_empty (topic : String) (doc_contents : List String) :
    fallbackReport topic doc_contents ≠ "" := by
  unfold fallbackReport
  apply append_right_ne_empty
  decide

/-- The shape of a depth-"basic" orchestrated run: one cycle, then the
knowledge push and the statistics decoration. -/
lemma execute_basic_shape (env : OrchEnv) (topic : String) (store : List Chunk) :
    ∃ stn : List Chunk,
      execute_research_task env topic "basic" store
        = (let rep := write_report env.use_embeddings env.embedQ env.llm stn topic
           let st2 := (add_knowledge false stn rep.content
             (some ("Research on " ++ topic)) env.knowledge_time).2
           (some { rep with
                    review := some (review_report rep.content topic),
                    knowledge_stats := some (get_knowledge_stats st2) },
            st2)) := by
  refine ⟨researchAll env topic (0 + 1) store, ?_⟩
  have hb1 : iterationsFor "basic" = 0 + 1 := by decide
  simp only [execute_research_task, hb1, orchRounds_eq]

/-- C1: with all external services unavailable (no embeddings, no generation
model, local fallback vector store, disconnected relational store), a
depth-"basic" `execute_research_task` run on any topic still returns a
report whose content is a non-empty string, whose review has a
quality score in `[0,100]`, and whose knowledge statistics report at least
one stored record (the report itself was inserted). -/
theorem C1_degraded_end_to_end :
    ∀ (split : String → List String)
      (embed : Nat → Nat → String → Option (List Rat))
      (embedQ : String → Option (List Rat)) (clock : Nat → Nat → Int)
      (kt : Int) (topic : String) (store : List Chunk),
      ∃ (rep : Report) (store' : List Chunk),
        execute_research_task
            { split := split, use_embeddings := false, embed := embed,
              embedQ := embedQ, llm := none, clock := clock,
              knowledge_time := kt } topic "basic" store
          = (some rep, store')
        ∧ ¬(rep.content = "")
        ∧ (∃ rev, rep.review = some rev
            ∧ 0 ≤ rev.quality_score ∧ rev.quality_score ≤ 100)
        ∧ (∃ stats, rep.knowledge_stats = some stats ∧ 1 ≤ stats.1) := by
  intro split embed embedQ clock kt topic store
  obtain ⟨stn, hexec⟩ := execute_basic_shape
    { split := split, use_embeddings := false, embed := embed,
      embedQ := embedQ, llm := none, clock := clock, knowledge_time := kt }
    topic store
  dsimp only at hexec
  refine ⟨_, _, hexec, ?_, ?_, ?_⟩
  · show ¬((write_report false embedQ none stn topic).content = "")
    simp only [write_report, generate_report_from_docs, Bool.false_eq_true,
      if_false]
    exact fallbackReport_ne_empty topic [defaultDocContent topic]
  · exact ⟨review_report (write_report false embedQ none stn topic).content topic,
      rfl, (quality_score_bounds _ _).1, (quality_score_bounds _ _).2⟩
  · refine ⟨_, rfl, ?_⟩
    simp [add_knowledge, insert_document, get_knowledge_stats]
